import Mathlib

/-!
Shallow embedding of the RealtimeSTT session coordinator
(`SCRIPT/orchestrator.py` and `SCRIPT/realtime_module.py`).

The orchestrator is a command-driven state machine: a TCP listener feeds
command strings, one at a time, to `_handle_command`, which dispatches to
the mode handlers.  We embed the mutable object state of `STTOrchestrator`
as the structure `OrchState`, each handler as a pure function
`OrchState → OrchState × List Event`, and the fallible operations
(dynamic module import, transcriber construction) as boolean oracles
packaged in `Env`, indexed by per-mode attempt counters kept in the state.
Observable side effects (console prints, log lines, process kills,
engine calls, thread spawns) are recorded in an event trace.
-/

namespace STT

/-- The three transcription modes of the orchestrator
(`self.current_mode` can be `"realtime"`, `"longform"` or `"static"`). -/
inductive ModeId
  | realtime
  | longform
  | static
deriving DecidableEq, Repr

/-- Observable side effects of the orchestrator: console prints, log
lines, engine operations, process-level actions.  `reply` is the
(never produced) event of sending data back to the command sender;
it exists so that fire-and-forget behaviour can be stated. -/
inductive Event
  | printBusy (requested current : ModeId)
  | printNothingToStop
  | printUnavailable (m : ModeId)
  | printFailedInit (m : ModeId)
  | logImportError (m : ModeId)
  | logInitError (m : ModeId)
  | logUnknownCommand (cmd : String)
  | reply (msg : String)
  | launchAhk
  | killPid (pid : Nat)
  | spawnRealtimeThread
  | spawnStaticThread
  | startRecordingLongform
  | stopRecordingLongform
  | recorderAbort (r : Nat)
  | recorderShutdown (r : Nat)
  | cleanUpLongform
  | joinServerThread
  | exitProcess
deriving DecidableEq, Repr

/-- A cached transcriber handle.  `tid` is the object identity (fresh
counter value at construction time); the remaining fields embed the
instance attributes of `LongFormTranscriber` in `realtime_module.py`
(`text_buffer`, `running`, `recorder`, `model_initialized`).  The
`recorder` field holds the identity of the underlying engine instance
(`AudioToTextRecorder`) when one is constructed. -/
structure Transcriber where
  tid : Nat
  text_buffer : String
  running : Bool
  recorder : Option Nat
  model_initialized : Bool
deriving DecidableEq, Repr

/-- `LongFormTranscriber._initialize_recorder` (realtime_module.py:172):
if a recorder already exists, return True without constructing; otherwise
attempt construction (success given by the oracle `ok`; `fresh` is the
identity of the engine instance constructed on success). -/
def initialize_recorder (ok : Bool) (fresh : Nat) (t : Transcriber) :
    Transcriber × Bool :=
  match t.recorder with
  | some _ => (t, true)
  | none =>
      if ok then
        ({ t with recorder := some fresh, model_initialized := true }, true)
      else
        (t, false)

/-- `LongFormTranscriber.stop` (realtime_module.py:268): set `running`
to False; if a recorder exists, abort and shut it down and drop the
reference (`recorder = None`, `model_initialized = False`). -/
def rt_stop (t : Transcriber) : Transcriber × List Event :=
  let t1 := { t with running := false }
  match t1.recorder with
  | some r =>
      ({ t1 with recorder := none, model_initialized := false },
       [Event.recorderAbort r, Event.recorderShutdown r])
  | none => (t1, [])

/-- Oracles deciding whether the fallible external operations succeed:
`importOk m k` is the outcome of the k-th attempt to import mode m's
module file, `constructOk m k` the outcome of the k-th invocation of
mode m's transcriber constructor. -/
structure Env where
  importOk : ModeId → Nat → Bool
  constructOk : ModeId → Nat → Bool

/-- The mutable state of `STTOrchestrator` (orchestrator.py:89):
`running`, `server_thread` (whether the listener thread was started),
`current_mode`, `ahk_pid`, the `modules` and `transcribers` caches.
`importCount`/`constructCount` count the import and constructor
invocations per mode (they index the `Env` oracles), and `nextId`
supplies fresh object identities. -/
structure OrchState where
  running : Bool
  server_thread : Bool
  current_mode : Option ModeId
  ahk_pid : Option Nat
  modules : ModeId → Bool
  transcribers : ModeId → Option Transcriber
  importCount : ModeId → Nat
  constructCount : ModeId → Nat
  nextId : Nat

/-- Pointwise update of a per-mode table. -/
def upd {α : Type} (f : ModeId → α) (m : ModeId) (v : α) : ModeId → α :=
  fun x => if x = m then v else f x

/-- `STTOrchestrator.__init__` (orchestrator.py:89): running False,
no server thread, no mode, no AHK pid, empty caches. -/
def initState : OrchState :=
  { running := false
    server_thread := false
    current_mode := none
    ahk_pid := none
    modules := fun _ => false
    transcribers := fun _ => none
    importCount := fun _ => 0
    constructCount := fun _ => 0
    nextId := 0 }

/-- `STTOrchestrator.start_server` (orchestrator.py:186): sets `running`
True and starts the listener thread. -/
def start_server (s : OrchState) : OrchState :=
  { s with running := true, server_thread := true }

/-- `STTOrchestrator.import_module_lazily` (orchestrator.py:106): return
the cached module if present; otherwise attempt the file lookup and
`exec_module` (collapsed into one oracle draw), caching the module only
on success.  Returns whether a usable module is available. -/
def import_module_lazily (env : Env) (s : OrchState) (m : ModeId) :
    OrchState × Bool × List Event :=
  if s.modules m then (s, true, [])
  else
    let ok := env.importOk m (s.importCount m)
    let s1 := { s with importCount := upd s.importCount m (s.importCount m + 1) }
    if ok then
      ({ s1 with modules := upd s1.modules m true }, true, [])
    else
      (s1, false, [Event.logImportError m])

/-- The transcriber instance constructed for mode `m` with identity
`id`.  Realtime: `LongFormTranscriber()` of realtime_module.py, whose
`__init__` sets `text_buffer = ""`, `running = False`, `recorder = None`,
`model_initialized = False`.  Longform and static: modelled from the
spec — their module files (`longform_module.py`, `static_module.py`)
are not in the repository snapshot; per the spec the longform
transcriber is constructed with `preload_model=True` (eager engine
initialization, hence a live engine reference), and the static
transcriber's internals are opaque. -/
def mkTranscriber (m : ModeId) (id : Nat) : Transcriber :=
  match m with
  | ModeId.realtime => ⟨id, "", false, none, false⟩
  | ModeId.longform => ⟨id, "", false, some id, true⟩
  | ModeId.static => ⟨id, "", false, none, false⟩

/-- `STTOrchestrator.initialize_transcriber` (orchestrator.py:136):
return the cached transcriber if present; otherwise import the module
lazily, then invoke the mode's constructor (outcome given by the
`constructOk` oracle), caching the instance only on success.  On any
failure nothing is cached and `None` is returned. -/
def initialize_transcriber (env : Env) (s : OrchState) (m : ModeId) :
    OrchState × Option Transcriber × List Event :=
  match s.transcribers m with
  | some t => (s, some t, [])
  | none =>
      let r := import_module_lazily env s m
      let s1 := r.1
      if r.2.1 then
        let cok := env.constructOk m (s1.constructCount m)
        let s2 := { s1 with
          constructCount := upd s1.constructCount m (s1.constructCount m + 1) }
        if cok then
          let t := mkTranscriber m s2.nextId
          ({ s2 with
              transcribers := upd s2.transcribers m (some t)
              nextId := s2.nextId + 1 },
           some t, r.2.2)
        else
          (s2, none, r.2.2 ++ [Event.logInitError m])
      else
        (s1, none, r.2.2)

/-- `STTOrchestrator._toggle_realtime` (orchestrator.py:241): busy when
a different mode is active; stop the realtime transcriber when realtime
is active (setting `current_mode = None`); otherwise acquire the
realtime transcriber and, on success, set `current_mode = "realtime"`
and spawn the worker thread. -/
def toggle_realtime (env : Env) (s : OrchState) : OrchState × List Event :=
  match s.current_mode with
  | some m =>
      if m = ModeId.realtime then
        match s.transcribers ModeId.realtime with
        | some t =>
            let t1 := { t with running := false }
            let r := rt_stop t1
            ({ s with
                transcribers := upd s.transcribers ModeId.realtime (some r.1)
                current_mode := none },
             r.2)
        | none => ({ s with current_mode := none }, [])
      else
        (s, [Event.printBusy ModeId.realtime m])
  | none =>
      let r := initialize_transcriber env s ModeId.realtime
      match r.2.1 with
      | none => (r.1, r.2.2 ++ [Event.printFailedInit ModeId.realtime])
      | some _ =>
          ({ r.1 with current_mode := some ModeId.realtime },
           r.2.2 ++ [Event.spawnRealtimeThread])

/-- `STTOrchestrator._start_longform` (orchestrator.py:313): busy when
any mode is active; otherwise acquire the longform transcriber and, on
success, set `current_mode = "longform"` and call `start_recording`. -/
def start_longform (env : Env) (s : OrchState) : OrchState × List Event :=
  match s.current_mode with
  | some m => (s, [Event.printBusy ModeId.longform m])
  | none =>
      let r := initialize_transcriber env s ModeId.longform
      match r.2.1 with
      | none => (r.1, r.2.2 ++ [Event.printFailedInit ModeId.longform])
      | some _ =>
          ({ r.1 with current_mode := some ModeId.longform },
           r.2.2 ++ [Event.startRecordingLongform])

/-- `STTOrchestrator._stop_longform` (orchestrator.py:335): when
`current_mode` is not `"longform"`, print "No active long-form
recording to stop" and return unchanged; otherwise call
`stop_recording` (or report the transcriber unavailable) and set
`current_mode = None`. -/
def stop_longform (s : OrchState) : OrchState × List Event :=
  if s.current_mode = some ModeId.longform then
    match s.transcribers ModeId.longform with
    | none =>
        ({ s with current_mode := none },
         [Event.printUnavailable ModeId.longform])
    | some _ =>
        ({ s with current_mode := none }, [Event.stopRecordingLongform])
  else
    (s, [Event.printNothingToStop])

/-- `STTOrchestrator._run_static` (orchestrator.py:356): busy when any
mode is active; otherwise acquire the static transcriber and, on
success, set `current_mode = "static"` and spawn the worker thread. -/
def run_static (env : Env) (s : OrchState) : OrchState × List Event :=
  match s.current_mode with
  | some m => (s, [Event.printBusy ModeId.static m])
  | none =>
      let r := initialize_transcriber env s ModeId.static
      match r.2.1 with
      | none => (r.1, r.2.2 ++ [Event.printFailedInit ModeId.static])
      | some _ =>
          ({ r.1 with current_mode := some ModeId.static },
           r.2.2 ++ [Event.spawnStaticThread])

/-- `STTOrchestrator.stop_ahk_script` (orchestrator.py:467): kill the
AHK process when its pid is known, otherwise do nothing.  The state is
not modified (`ahk_pid` is not cleared by the source). -/
def stop_ahk_script (s : OrchState) : List Event :=
  match s.ahk_pid with
  | some p => [Event.killPid p]
  | none => []

/-- The resource-cleanup loop of `STTOrchestrator.stop`
(orchestrator.py:570): for the cached realtime transcriber call its
`stop()`; for the cached longform transcriber call `clean_up()` when
its `recorder` is live; the static transcriber gets no cleanup call. -/
def cleanup_transcribers (s : OrchState) : OrchState × List Event :=
  let p :=
    match s.transcribers ModeId.realtime with
    | some t =>
        let r := rt_stop t
        ({ s with transcribers := upd s.transcribers ModeId.realtime (some r.1) },
         r.2)
    | none => (s, ([] : List Event))
  let ev2 :=
    match p.1.transcribers ModeId.longform with
    | some t => if t.recorder.isSome then [Event.cleanUpLongform] else []
    | none => ([] : List Event)
  (p.1, p.2 ++ ev2)

/-- `STTOrchestrator.stop` (orchestrator.py:535): return immediately
when not running; otherwise clear the running flag, signal the active
mode's engine to stop (realtime: `stop()`; longform: `stop_recording`;
static: left to finish naturally), kill the AHK process when its pid
is known, join the server thread unless running on it, and run the
resource-cleanup loop.  `onServerThread` says whether the call is made
from the listener thread (as `_quit` is).  The stop-active-mode step of `STTOrchestrator.stop`
(orchestrator.py:543): realtime gets `stop()`, longform gets
`stop_recording()`, static is left to finish naturally. -/
def stop_active_mode (s : OrchState) : OrchState × List Event :=
  match s.current_mode with
  | some ModeId.realtime =>
      match s.transcribers ModeId.realtime with
      | some t =>
          let r := rt_stop t
          ({ s with
              transcribers := upd s.transcribers ModeId.realtime (some r.1) },
           r.2)
      | none => (s, ([] : List Event))
  | some ModeId.longform =>
      match s.transcribers ModeId.longform with
      | some _ => (s, [Event.stopRecordingLongform])
      | none => (s, ([] : List Event))
  | some ModeId.static => (s, ([] : List Event))
  | none => (s, ([] : List Event))

/-- Body of `STTOrchestrator.stop` as described above: early return when
not running, then clear the flag, stop the active mode, kill the AHK
process, conditionally join, and clean up. -/
def stop (onServerThread : Bool) (s : OrchState) : OrchState × List Event :=
  if s.running then
    let p := stop_active_mode { s with running := false }
    let ev3 := stop_ahk_script p.1
    let ev4 :=
      if p.1.server_thread && !onServerThread then [Event.joinServerThread]
      else ([] : List Event)
    let q := cleanup_transcribers p.1
    (q.1, p.2 ++ ev3 ++ ev4 ++ q.2)
  else
    (s, [])

/-- `STTOrchestrator._quit` (orchestrator.py:403): run `stop()` (on the
listener thread, since commands are handled there) and force process
exit. -/
def quit (s : OrchState) : OrchState × List Event :=
  let r := stop true s
  (r.1, r.2 ++ [Event.exitProcess])

/-- `STTOrchestrator._handle_command` (orchestrator.py:223): dispatch on
the received command string; unknown tags are logged as errors and
dropped, with no reply of any kind to the sender. -/
def handle_command (env : Env) (s : OrchState) (cmd : String) :
    OrchState × List Event :=
  if cmd = "TOGGLE_REALTIME" then toggle_realtime env s
  else if cmd = "START_LONGFORM" then start_longform env s
  else if cmd = "STOP_LONGFORM" then stop_longform s
  else if cmd = "RUN_STATIC" then run_static env s
  else if cmd = "QUIT" then quit s
  else (s, [Event.logUnknownCommand cmd])

/-- The listener loop (`_run_server`, orchestrator.py:193) processes one
command per connection, sequentially: fold `handle_command` over the
received command strings. -/
def processCmds (env : Env) : OrchState → List String → OrchState
  | s, [] => s
  | s, c :: rest => processCmds env (handle_command env s c).1 rest

/-- The set difference `post_pids - pre_pids` of the two PID snapshots
(each snapshot is the enumeration order of matching processes; the
Python sets are embedded as deduplicated lists). -/
def newPids (pre post : List Nat) : List Nat :=
  (post.filter (fun p => decide (p ∉ pre))).dedup

/-- `STTOrchestrator.start_ahk_script` (orchestrator.py:423): given the
PID snapshots before (`pre`) and after (`post`) launching the companion
process, store the single new PID as `ahk_pid` when exactly one new PID
appears, and store nothing otherwise. -/
def start_ahk_script (s : OrchState) (pre post : List Nat) :
    OrchState × List Event :=
  match newPids pre post with
  | [p] => ({ s with ahk_pid := some p }, [Event.launchAhk])
  | _ => ({ s with ahk_pid := none }, [Event.launchAhk])

/-- Mode `m` is active in state `s` (`current_mode` equals it). -/
def isActive (s : OrchState) (m : ModeId) : Prop :=
  s.current_mode = some m

/-- The listener accepts connections exactly while the running flag is
set (`while self.running` around `accept`, orchestrator.py:203). -/
def acceptsConnections (s : OrchState) : Bool :=
  s.running

/-- The command strings that start a mode, and which mode each starts. -/
def startCommandOf (c : String) : Option ModeId :=
  if c = "TOGGLE_REALTIME" then some ModeId.realtime
  else if c = "START_LONGFORM" then some ModeId.longform
  else if c = "RUN_STATIC" then some ModeId.static
  else none

/-- An environment in which every import and construction succeeds. -/
def envAll : Env :=
  { importOk := fun _ _ => true, constructOk := fun _ _ => true }

/-! ### Helper lemmas -/

theorem rt_stop_tid (t : Transcriber) : (rt_stop t).1.tid = t.tid := by
  rcases t with ⟨tid, tb, rn, rec, mi⟩
  cases rec <;> rfl

theorem rt_stop_recorder (t : Transcriber) : (rt_stop t).1.recorder = none := by
  rcases t with ⟨tid, tb, rn, rec, mi⟩
  cases rec <;> rfl

theorem initialize_transcriber_cached (env : Env) (s : OrchState) (m : ModeId)
    (t : Transcriber) (h : s.transcribers m = some t) :
    initialize_transcriber env s m = (s, some t, []) := by
  unfold initialize_transcriber
  rw [h]

theorem initialize_transcriber_fresh (env : Env) (s : OrchState) (m : ModeId)
    (h0 : s.transcribers m = none)
    (h1 : s.modules m = false)
    (hio : env.importOk m (s.importCount m) = true)
    (hco : env.constructOk m (s.constructCount m) = true) :
    (initialize_transcriber env s m).2.1 = some (mkTranscriber m s.nextId) ∧
    (initialize_transcriber env s m).1.transcribers m
      = some (mkTranscriber m s.nextId) ∧
    (initialize_transcriber env s m).1.constructCount m
      = s.constructCount m + 1 ∧
    (initialize_transcriber env s m).1.importCount m = s.importCount m + 1 ∧
    (initialize_transcriber env s m).1.current_mode = s.current_mode ∧
    (initialize_transcriber env s m).2.2 = [] := by
  simp [initialize_transcriber, import_module_lazily, h0, h1, hio, hco, upd]

theorem initialize_transcriber_modcached (env : Env) (s : OrchState) (m : ModeId)
    (h0 : s.transcribers m = none)
    (h1 : s.modules m = true)
    (hco : env.constructOk m (s.constructCount m) = true) :
    (initialize_transcriber env s m).2.1 = some (mkTranscriber m s.nextId) ∧
    (initialize_transcriber env s m).1.transcribers m
      = some (mkTranscriber m s.nextId) ∧
    (initialize_transcriber env s m).1.constructCount m
      = s.constructCount m + 1 := by
  simp [initialize_transcriber, import_module_lazily, h0, h1, hco, upd]

theorem initialize_transcriber_consfail (env : Env) (s : OrchState) (m : ModeId)
    (h0 : s.transcribers m = none)
    (himp : s.modules m = true ∨ env.importOk m (s.importCount m) = true)
    (hco : env.constructOk m (s.constructCount m) = false) :
    (initialize_transcriber env s m).2.1 = none ∧
    (initialize_transcriber env s m).1.transcribers m = none ∧
    (initialize_transcriber env s m).1.modules m = true ∧
    (initialize_transcriber env s m).1.constructCount m
      = s.constructCount m + 1 ∧
    (initialize_transcriber env s m).1.current_mode = s.current_mode ∧
    (initialize_transcriber env s m).1.nextId = s.nextId ∧
    Event.logInitError m ∈ (initialize_transcriber env s m).2.2 := by
  rcases himp with h1 | h1
  · simp [initialize_transcriber, import_module_lazily, h0, h1, hco, upd]
  · by_cases h2 : s.modules m = true
    · simp [initialize_transcriber, import_module_lazily, h0, h2, hco, upd]
    · simp only [Bool.not_eq_true] at h2
      simp [initialize_transcriber, import_module_lazily, h0, h1, h2, hco, upd]

theorem initialize_transcriber_preserves (env : Env) (s : OrchState)
    (m m' : ModeId) (t' : Transcriber) (h : s.transcribers m' = some t') :
    (initialize_transcriber env s m).1.transcribers m' = some t' := by
  cases h0 : s.transcribers m with
  | some t => rw [initialize_transcriber_cached env s m t h0]; exact h
  | none =>
    have hne : m' ≠ m := by
      intro e
      rw [e, h0] at h
      cases h
    unfold initialize_transcriber import_module_lazily
    rw [h0]
    by_cases h2 : s.modules m = true <;>
      by_cases h3 : env.importOk m (s.importCount m) = true <;>
      by_cases h4 : env.constructOk m (s.constructCount m) = true <;>
      simp [h2, h3, h4, upd, hne, h]

theorem initialize_transcriber_current_mode (env : Env) (s : OrchState)
    (m : ModeId) :
    (initialize_transcriber env s m).1.current_mode = s.current_mode := by
  cases h0 : s.transcribers m with
  | some t => rw [initialize_transcriber_cached env s m t h0]
  | none =>
    unfold initialize_transcriber import_module_lazily
    rw [h0]
    by_cases h2 : s.modules m = true <;>
      by_cases h3 : env.importOk m (s.importCount m) = true <;>
      by_cases h4 : env.constructOk m (s.constructCount m) = true <;>
      simp [h2, h3, h4]

theorem handle_command_toggle (env : Env) (s : OrchState) :
    handle_command env s "TOGGLE_REALTIME" = toggle_realtime env s := rfl

theorem handle_command_start_longform (env : Env) (s : OrchState) :
    handle_command env s "START_LONGFORM" = start_longform env s := rfl

theorem handle_command_stop_longform (env : Env) (s : OrchState) :
    handle_command env s "STOP_LONGFORM" = stop_longform s := rfl

theorem handle_command_run_static (env : Env) (s : OrchState) :
    handle_command env s "RUN_STATIC" = run_static env s := rfl

theorem handle_command_quit (env : Env) (s : OrchState) :
    handle_command env s "QUIT" = quit s := rfl

theorem handle_command_unknown (env : Env) (s : OrchState) (c : String)
    (h1 : c ≠ "TOGGLE_REALTIME") (h2 : c ≠ "START_LONGFORM")
    (h3 : c ≠ "STOP_LONGFORM") (h4 : c ≠ "RUN_STATIC") (h5 : c ≠ "QUIT") :
    handle_command env s c = (s, [Event.logUnknownCommand c]) := by
  unfold handle_command
  rw [if_neg h1, if_neg h2, if_neg h3, if_neg h4, if_neg h5]

theorem stop_active_mode_running (s : OrchState) :
    (stop_active_mode s).1.running = s.running := by
  unfold stop_active_mode
  cases hm : s.current_mode with
  | none => rfl
  | some m =>
    cases m with
    | realtime => cases ht : s.transcribers ModeId.realtime <;> rfl
    | longform => cases ht : s.transcribers ModeId.longform <;> rfl
    | static => rfl

theorem stop_active_mode_current_mode (s : OrchState) :
    (stop_active_mode s).1.current_mode = s.current_mode := by
  unfold stop_active_mode
  cases hm : s.current_mode with
  | none => exact hm
  | some m =>
    cases m with
    | realtime => cases ht : s.transcribers ModeId.realtime <;> first | rfl | exact hm
    | longform => cases ht : s.transcribers ModeId.longform <;> first | rfl | exact hm
    | static => exact hm

theorem stop_active_mode_ahk_pid (s : OrchState) :
    (stop_active_mode s).1.ahk_pid = s.ahk_pid := by
  unfold stop_active_mode
  cases hm : s.current_mode with
  | none => rfl
  | some m =>
    cases m with
    | realtime => cases ht : s.transcribers ModeId.realtime <;> rfl
    | longform => cases ht : s.transcribers ModeId.longform <;> rfl
    | static => rfl

theorem stop_active_mode_server_thread (s : OrchState) :
    (stop_active_mode s).1.server_thread = s.server_thread := by
  unfold stop_active_mode
  cases hm : s.current_mode with
  | none => rfl
  | some m =>
    cases m with
    | realtime => cases ht : s.transcribers ModeId.realtime <;> rfl
    | longform => cases ht : s.transcribers ModeId.longform <;> rfl
    | static => rfl

theorem cleanup_transcribers_running (s : OrchState) :
    (cleanup_transcribers s).1.running = s.running := by
  unfold cleanup_transcribers
  cases ht : s.transcribers ModeId.realtime <;> rfl

theorem cleanup_transcribers_current_mode (s : OrchState) :
    (cleanup_transcribers s).1.current_mode = s.current_mode := by
  unfold cleanup_transcribers
  cases ht : s.transcribers ModeId.realtime <;> rfl

theorem cleanup_transcribers_ahk_pid (s : OrchState) :
    (cleanup_transcribers s).1.ahk_pid = s.ahk_pid := by
  unfold cleanup_transcribers
  cases ht : s.transcribers ModeId.realtime <;> rfl

theorem stop_not_running (b : Bool) (s : OrchState) (h : s.running = false) :
    stop b s = (s, []) := by
  unfold stop
  rw [h]
  rfl

theorem stop_of_running (b : Bool) (s : OrchState) (hr : s.running = true) :
    stop b s =
      ((cleanup_transcribers (stop_active_mode { s with running := false }).1).1,
       (stop_active_mode { s with running := false }).2 ++
         stop_ahk_script (stop_active_mode { s with running := false }).1 ++
         (if (stop_active_mode { s with running := false }).1.server_thread && !b
            then [Event.joinServerThread] else []) ++
         (cleanup_transcribers (stop_active_mode { s with running := false }).1).2) := by
  unfold stop
  rw [hr]
  rfl

theorem stop_fst_running (b : Bool) (s : OrchState) :
    (stop b s).1.running = false := by
  cases hr : s.running with
  | false => rw [stop_not_running b s hr]; exact hr
  | true =>
    rw [stop_of_running b s hr]
    dsimp only
    rw [cleanup_transcribers_running, stop_active_mode_running]

theorem stop_fst_current_mode (b : Bool) (s : OrchState) :
    (stop b s).1.current_mode = s.current_mode := by
  cases hr : s.running with
  | false => rw [stop_not_running b s hr]
  | true =>
    rw [stop_of_running b s hr]
    dsimp only
    rw [cleanup_transcribers_current_mode, stop_active_mode_current_mode]

theorem stop_fst_ahk_pid (b : Bool) (s : OrchState) :
    (stop b s).1.ahk_pid = s.ahk_pid := by
  cases hr : s.running with
  | false => rw [stop_not_running b s hr]
  | true =>
    rw [stop_of_running b s hr]
    dsimp only
    rw [cleanup_transcribers_ahk_pid, stop_active_mode_ahk_pid]

theorem stop_kill_mem (b : Bool) (s : OrchState) (p : Nat)
    (hr : s.running = true) (hp : s.ahk_pid = some p) :
    Event.killPid p ∈ (stop b s).2 := by
  rw [stop_of_running b s hr]
  dsimp only
  have hpid : (stop_active_mode { s with running := false }).1.ahk_pid = some p := by
    rw [stop_active_mode_ahk_pid]
    exact hp
  simp only [List.mem_append]
  left; left; right
  unfold stop_ahk_script
  rw [hpid]
  simp

theorem toggle_realtime_busy (env : Env) (s : OrchState) (X : ModeId)
    (hA : s.current_mode = some X) (hX : X ≠ ModeId.realtime) :
    toggle_realtime env s = (s, [Event.printBusy ModeId.realtime X]) := by
  unfold toggle_realtime
  rw [hA]
  simp [hX]

theorem start_longform_busy (env : Env) (s : OrchState) (X : ModeId)
    (hA : s.current_mode = some X) :
    start_longform env s = (s, [Event.printBusy ModeId.longform X]) := by
  unfold start_longform
  rw [hA]

theorem run_static_busy (env : Env) (s : OrchState) (X : ModeId)
    (hA : s.current_mode = some X) :
    run_static env s = (s, [Event.printBusy ModeId.static X]) := by
  unfold run_static
  rw [hA]

theorem toggle_realtime_stop_mode (env : Env) (s : OrchState)
    (hA : s.current_mode = some ModeId.realtime) :
    (toggle_realtime env s).1.current_mode = none := by
  unfold toggle_realtime
  rw [hA]
  cases ht : s.transcribers ModeId.realtime <;> simp [ht]

theorem toggle_realtime_start_mode (env : Env) (s : OrchState)
    (t : Transcriber) (h0 : s.current_mode = none)
    (hr : (initialize_transcriber env s ModeId.realtime).2.1 = some t) :
    (toggle_realtime env s).1.current_mode = some ModeId.realtime := by
  unfold toggle_realtime
  rw [h0]
  simp only []
  rw [hr]

/-- Claim C1: for every sequence of commands processed one at a time, at
most one mode is active at any instant, and a command that starts mode Y
(TOGGLE_REALTIME, START_LONGFORM or RUN_STATIC) arriving while a
different mode X is active leaves the state unchanged (in particular
`currentMode = X`) and reports a busy outcome. -/
theorem claim_C1_mutual_exclusion (env : Env) (s : OrchState) (c : String)
    (X Y : ModeId) (hA : s.current_mode = some X)
    (hs : startCommandOf c = some Y) (hne : Y ≠ X) :
    (∀ (s0 : OrchState) (cmds : List String) (m m2 : ModeId),
        isActive (processCmds env s0 cmds) m →
        isActive (processCmds env s0 cmds) m2 → m = m2) ∧
    (handle_command env s c).1 = s ∧
    Event.printBusy Y X ∈ (handle_command env s c).2 := by
  refine ⟨fun s0 cmds m m2 h1 h2 => ?_, ?_⟩
  · unfold isActive at h1 h2
    rw [h1] at h2
    exact Option.some.inj h2
  by_cases h1 : c = "TOGGLE_REALTIME"
  · subst h1
    have hY : Y = ModeId.realtime := by
      have h : (some ModeId.realtime : Option ModeId) = some Y := hs
      exact (Option.some.inj h).symm
    subst hY
    rw [handle_command_toggle, toggle_realtime_busy env s X hA (Ne.symm hne)]
    exact ⟨rfl, by simp⟩
  by_cases h2 : c = "START_LONGFORM"
  · subst h2
    have hY : Y = ModeId.longform := by
      have h : (some ModeId.longform : Option ModeId) = some Y := hs
      exact (Option.some.inj h).symm
    subst hY
    rw [handle_command_start_longform, start_longform_busy env s X hA]
    exact ⟨rfl, by simp⟩
  by_cases h3 : c = "RUN_STATIC"
  · subst h3
    have hY : Y = ModeId.static := by
      have h : (some ModeId.static : Option ModeId) = some Y := hs
      exact (Option.some.inj h).symm
    subst hY
    rw [handle_command_run_static, run_static_busy env s X hA]
    exact ⟨rfl, by simp⟩
  · exfalso
    unfold startCommandOf at hs
    rw [if_neg h1, if_neg h2, if_neg h3] at hs
    cases hs

theorem claim_C1_witness :
    ({ initState with current_mode := some ModeId.longform } : OrchState).current_mode
        = some ModeId.longform ∧
    (handle_command envAll { initState with current_mode := some ModeId.longform }
        "RUN_STATIC").1
      = { initState with current_mode := some ModeId.longform } ∧
    Event.printBusy ModeId.static ModeId.longform ∈
      (handle_command envAll { initState with current_mode := some ModeId.longform }
        "RUN_STATIC").2 :=
  ⟨rfl,
   (claim_C1_mutual_exclusion envAll
      { initState with current_mode := some ModeId.longform }
      "RUN_STATIC" ModeId.longform ModeId.static rfl rfl (by decide)).2.1,
   (claim_C1_mutual_exclusion envAll
      { initState with current_mode := some ModeId.longform }
      "RUN_STATIC" ModeId.longform ModeId.static rfl rfl (by decide)).2.2⟩

/-- Claim C3: starting from `currentMode = None`, processing
TOGGLE_REALTIME (with successful acquisition) and then TOGGLE_REALTIME
again returns the session to `currentMode = None`; Realtime is the only
mode whose start command also stops it (START_LONGFORM while longform is
active and RUN_STATIC while static is active leave the mode active,
rejected as busy). -/
theorem claim_C3_toggle_symmetry (env : Env) (s : OrchState)
    (t : Transcriber) (h0 : s.current_mode = none)
    (hinit : (initialize_transcriber env s ModeId.realtime).2.1 = some t) :
    (handle_command env s "TOGGLE_REALTIME").1.current_mode
        = some ModeId.realtime ∧
    (processCmds env s ["TOGGLE_REALTIME", "TOGGLE_REALTIME"]).current_mode
        = none ∧
    (∀ s2 : OrchState, s2.current_mode = some ModeId.longform →
        (handle_command env s2 "START_LONGFORM").1.current_mode
          = some ModeId.longform) ∧
    (∀ s2 : OrchState, s2.current_mode = some ModeId.static →
        (handle_command env s2 "RUN_STATIC").1.current_mode
          = some ModeId.static) := by
  have hfirst : (handle_command env s "TOGGLE_REALTIME").1.current_mode
      = some ModeId.realtime := by
    rw [handle_command_toggle]
    exact toggle_realtime_start_mode env s t h0 hinit
  refine ⟨hfirst, ?_, fun s2 h2 => ?_, fun s2 h2 => ?_⟩
  · show (handle_command env
        (handle_command env s "TOGGLE_REALTIME").1 "TOGGLE_REALTIME").1.current_mode
      = none
    rw [handle_command_toggle]
    exact toggle_realtime_stop_mode env _ hfirst
  · rw [handle_command_start_longform, start_longform_busy env s2 ModeId.longform h2]
    exact h2
  · rw [handle_command_run_static, run_static_busy env s2 ModeId.static h2]
    exact h2

theorem claim_C3_witness :
    (processCmds envAll initState
        ["TOGGLE_REALTIME", "TOGGLE_REALTIME"]).current_mode = none :=
  (claim_C3_toggle_symmetry envAll initState
      (mkTranscriber ModeId.realtime 0) rfl rfl).2.1

/-- Claim C7: processing STOP_LONGFORM while `currentMode` is not
"longform" (in particular while it is None) leaves the state unchanged,
reports a nothing-to-stop outcome, and does not invoke the longform
engine stop_recording operation. -/
theorem claim_C7_noop_stop (env : Env) (s : OrchState)
    (h : s.current_mode ≠ some ModeId.longform) :
    handle_command env s "STOP_LONGFORM" = (s, [Event.printNothingToStop]) ∧
    Event.stopRecordingLongform ∉ (handle_command env s "STOP_LONGFORM").2 := by
  rw [handle_command_stop_longform]
  unfold stop_longform
  rw [if_neg h]
  exact ⟨rfl, by simp⟩

theorem claim_C7_witness :
    handle_command envAll initState "STOP_LONGFORM"
      = (initState, [Event.printNothingToStop]) :=
  (claim_C7_noop_stop envAll initState (by decide)).1

/-- Claim C9: for every received command string outside the closed
command set, the session state is unchanged, the tag is logged as an
error, and no reply of any kind is sent back to the sender. -/
theorem claim_C9_unknown_command (env : Env) (s : OrchState) (c : String)
    (h1 : c ≠ "TOGGLE_REALTIME") (h2 : c ≠ "START_LONGFORM")
    (h3 : c ≠ "STOP_LONGFORM") (h4 : c ≠ "RUN_STATIC") (h5 : c ≠ "QUIT") :
    handle_command env s c = (s, [Event.logUnknownCommand c]) ∧
    ∀ msg, Event.reply msg ∉ (handle_command env s c).2 := by
  have he : handle_command env s c = (s, [Event.logUnknownCommand c]) :=
    handle_command_unknown env s c h1 h2 h3 h4 h5
  refine ⟨he, fun msg => ?_⟩
  rw [he]
  simp

theorem claim_C9_witness :
    handle_command envAll initState "HELLO"
      = (initState, [Event.logUnknownCommand "HELLO"]) :=
  (claim_C9_unknown_command envAll initState "HELLO"
      (by decide) (by decide) (by decide) (by decide) (by decide)).1

/-- Claim C10: calling stop() when the running flag is already false
returns immediately with no state change and no side effects;
consequently two consecutive stop() calls perform the teardown side
effects at most once (the second call is always a no-op). -/
theorem claim_C10_stop_idempotent (b : Bool) (s : OrchState)
    (h : s.running = false) :
    stop b s = (s, []) ∧
    ∀ (s2 : OrchState) (b1 b2 : Bool),
      stop b2 (stop b1 s2).1 = ((stop b1 s2).1, []) := by
  refine ⟨stop_not_running b s h, fun s2 b1 b2 => ?_⟩
  exact stop_not_running b2 _ (stop_fst_running b1 s2)

theorem claim_C10_witness :
    stop true initState = (initState, []) :=
  (claim_C10_stop_idempotent true initState rfl).1

/-- Counterexample to claim C2 as stated: from the reachable state
obtained by starting the server and successfully entering longform mode,
processing QUIT clears the running flag but leaves
`currentMode = longform` — `STTOrchestrator.stop` never resets
`current_mode` before the forced process exit. -/
theorem claim_C2_counterexample :
    (processCmds envAll (start_server initState)
        ["START_LONGFORM", "QUIT"]).current_mode = some ModeId.longform ∧
    (processCmds envAll (start_server initState)
        ["START_LONGFORM", "QUIT"]).running = false := by
  exact ⟨by decide, by decide⟩

/-- Claim C2 (amended): processing QUIT from any state in which the
server is running results in the running flag false (hence the listener
no longer accepting connections), the companion process killed when its
pid was known, and the forced process exit — while `currentMode` keeps
the value it had before the command (it is not reset to None). -/
theorem claim_C2_shutdown (env : Env) (s : OrchState) (hr : s.running = true) :
    (handle_command env s "QUIT").1.running = false ∧
    (handle_command env s "QUIT").1.current_mode = s.current_mode ∧
    (∀ p, s.ahk_pid = some p →
        Event.killPid p ∈ (handle_command env s "QUIT").2) ∧
    acceptsConnections (handle_command env s "QUIT").1 = false ∧
    Event.exitProcess ∈ (handle_command env s "QUIT").2 := by
  rw [handle_command_quit]
  unfold quit
  dsimp only
  refine ⟨stop_fst_running true s, stop_fst_current_mode true s,
    fun p hp => ?_, ?_, ?_⟩
  · exact List.mem_append.mpr (Or.inl (stop_kill_mem true s p hr hp))
  · unfold acceptsConnections
    exact stop_fst_running true s
  · simp

theorem claim_C2_witness :
    (handle_command envAll (start_server initState) "QUIT").1.running = false ∧
    Event.exitProcess ∈ (handle_command envAll (start_server initState) "QUIT").2 :=
  ⟨(claim_C2_shutdown envAll (start_server initState) rfl).1,
   (claim_C2_shutdown envAll (start_server initState) rfl).2.2.2.2⟩

theorem initialize_transcriber_importfail (env : Env) (s : OrchState)
    (m : ModeId) (h0 : s.transcribers m = none) (h1 : s.modules m = false)
    (hio : env.importOk m (s.importCount m) = false) :
    (initialize_transcriber env s m).2.1 = none := by
  simp [initialize_transcriber, import_module_lazily, h0, h1, hio]

theorem initialize_transcriber_some_cached (env : Env) (s : OrchState)
    (m : ModeId) (t : Transcriber)
    (h : (initialize_transcriber env s m).2.1 = some t) :
    (initialize_transcriber env s m).1.transcribers m = some t := by
  cases h0 : s.transcribers m with
  | some t0 =>
    rw [initialize_transcriber_cached env s m t0 h0] at h ⊢
    rw [h0]
    exact h
  | none =>
    by_cases h1 : s.modules m = true
    · by_cases h4 : env.constructOk m (s.constructCount m) = true
      · have hh := initialize_transcriber_modcached env s m h0 h1 h4
        rw [hh.1] at h
        rw [hh.2.1]
        exact h
      · have hh := initialize_transcriber_consfail env s m h0 (Or.inl h1)
          (by simpa using h4)
        rw [hh.1] at h
        cases h
    · have h1f : s.modules m = false := by simpa using h1
      by_cases h3 : env.importOk m (s.importCount m) = true
      · by_cases h4 : env.constructOk m (s.constructCount m) = true
        · have hh := initialize_transcriber_fresh env s m h0 h1f h3 h4
          rw [hh.1] at h
          rw [hh.2.1]
          exact h
        · have hh := initialize_transcriber_consfail env s m h0 (Or.inr h3)
            (by simpa using h4)
          rw [hh.1] at h
          cases h
      · have hh := initialize_transcriber_importfail env s m h0 h1f
          (by simpa using h3)
        rw [hh] at h
        cases h

/-- Claim C4: two consecutive acquisitions (initialize_transcriber
calls) with no intervening failure return the same transcriber
instance — the second call returns the same handle with no state change
and no events — and, starting from an empty cache, the construction
side effects (module import and transcriber constructor) occur exactly
once across the two calls. -/
theorem claim_C4_idempotent_acquisition (env : Env) (s : OrchState)
    (m : ModeId) (t : Transcriber)
    (h : (initialize_transcriber env s m).2.1 = some t) :
    initialize_transcriber env (initialize_transcriber env s m).1 m
        = ((initialize_transcriber env s m).1, some t, []) ∧
    (s.transcribers m = none → s.modules m = false →
      (initialize_transcriber env s m).1.constructCount m
          = s.constructCount m + 1 ∧
      (initialize_transcriber env s m).1.importCount m
          = s.importCount m + 1) := by
  refine ⟨initialize_transcriber_cached env _ m t
      (initialize_transcriber_some_cached env s m t h), fun h0 h1 => ?_⟩
  by_cases h3 : env.importOk m (s.importCount m) = true
  · by_cases h4 : env.constructOk m (s.constructCount m) = true
    · have hh := initialize_transcriber_fresh env s m h0 h1 h3 h4
      exact ⟨hh.2.2.1, hh.2.2.2.1⟩
    · have hh := initialize_transcriber_consfail env s m h0 (Or.inr h3)
        (by simpa using h4)
      rw [hh.1] at h
      cases h
  · have hh := initialize_transcriber_importfail env s m h0 h1
      (by simpa using h3)
    rw [hh] at h
    cases h

theorem claim_C4_witness :
    initialize_transcriber envAll
        (initialize_transcriber envAll initState ModeId.longform).1
        ModeId.longform
      = ((initialize_transcriber envAll initState ModeId.longform).1,
         some (mkTranscriber ModeId.longform 0), []) ∧
    (initialize_transcriber envAll initState ModeId.longform).1.constructCount
        ModeId.longform = 1 :=
  ⟨(claim_C4_idempotent_acquisition envAll initState ModeId.longform
      (mkTranscriber ModeId.longform 0) rfl).1,
   ((claim_C4_idempotent_acquisition envAll initState ModeId.longform
      (mkTranscriber ModeId.longform 0) rfl).2 rfl rfl).1⟩

theorem start_longform_initfail (env : Env) (s : OrchState)
    (hm : s.current_mode = none)
    (hf : (initialize_transcriber env s ModeId.longform).2.1 = none) :
    start_longform env s =
      ((initialize_transcriber env s ModeId.longform).1,
       (initialize_transcriber env s ModeId.longform).2.2
         ++ [Event.printFailedInit ModeId.longform]) := by
  unfold start_longform
  rw [hm]
  simp only []
  rw [hf]

/-- An environment in which every import succeeds and every constructor
invocation after the first succeeds (the first throws). -/
def envRetry : Env :=
  { importOk := fun _ _ => true, constructOk := fun _ k => decide (0 < k) }

/-- Claim C5: if constructing a mode's transcriber throws, the mode is
not entered (the START_LONGFORM handler ends with `currentMode` as it
was before the command), the error is logged, nothing is cached for
that mode key, and a later acquisition for the same key retries
construction (and succeeds when the constructor then succeeds). -/
theorem claim_C5_init_failure_atomicity (env : Env) (s : OrchState)
    (hm : s.current_mode = none)
    (h0 : s.transcribers ModeId.longform = none)
    (himp : s.modules ModeId.longform = true ∨
            env.importOk ModeId.longform (s.importCount ModeId.longform) = true)
    (hco : env.constructOk ModeId.longform
            (s.constructCount ModeId.longform) = false) :
    (handle_command env s "START_LONGFORM").1.current_mode
        = s.current_mode ∧
    (handle_command env s "START_LONGFORM").1.transcribers ModeId.longform
        = none ∧
    Event.logInitError ModeId.longform
        ∈ (handle_command env s "START_LONGFORM").2 ∧
    (handle_command env s "START_LONGFORM").1.constructCount ModeId.longform
        = s.constructCount ModeId.longform + 1 ∧
    (env.constructOk ModeId.longform
        ((handle_command env s "START_LONGFORM").1.constructCount
          ModeId.longform) = true →
      (initialize_transcriber env (handle_command env s "START_LONGFORM").1
          ModeId.longform).2.1
        = some (mkTranscriber ModeId.longform
            (handle_command env s "START_LONGFORM").1.nextId) ∧
      (initialize_transcriber env (handle_command env s "START_LONGFORM").1
          ModeId.longform).1.constructCount ModeId.longform
        = (handle_command env s "START_LONGFORM").1.constructCount
            ModeId.longform + 1) := by
  have hh := initialize_transcriber_consfail env s ModeId.longform h0 himp hco
  have he : handle_command env s "START_LONGFORM"
      = ((initialize_transcriber env s ModeId.longform).1,
         (initialize_transcriber env s ModeId.longform).2.2
           ++ [Event.printFailedInit ModeId.longform]) := by
    rw [handle_command_start_longform]
    exact start_longform_initfail env s hm hh.1
  rw [he]
  refine ⟨hh.2.2.2.2.1, hh.2.1, ?_, hh.2.2.2.1, fun hco2 => ?_⟩
  · exact List.mem_append.mpr (Or.inl hh.2.2.2.2.2.2)
  · have hr := initialize_transcriber_modcached env
      (initialize_transcriber env s ModeId.longform).1 ModeId.longform
      hh.2.1 hh.2.2.1 hco2
    exact ⟨hr.1, hr.2.2⟩

theorem claim_C5_witness :
    (handle_command envRetry initState "START_LONGFORM").1.transcribers
        ModeId.longform = none ∧
    Event.logInitError ModeId.longform
        ∈ (handle_command envRetry initState "START_LONGFORM").2 ∧
    (handle_command envRetry initState "START_LONGFORM").1.current_mode
        = initState.current_mode :=
  ⟨(claim_C5_init_failure_atomicity envRetry initState rfl rfl
      (Or.inr rfl) rfl).2.1,
   (claim_C5_init_failure_atomicity envRetry initState rfl rfl
      (Or.inr rfl) rfl).2.2.1,
   (claim_C5_init_failure_atomicity envRetry initState rfl rfl
      (Or.inr rfl) rfl).1⟩

/-- Claim C8: after launching the companion process, exactly one new
matching PID in the after-snapshot minus the before-snapshot causes that
PID to be stored as the companion identity; with zero or several new
PIDs the stored identity is None; terminating with identity None kills
nothing, and terminating with a known identity kills exactly that PID. -/
theorem claim_C8_companion_identity (s : OrchState) (pre post : List Nat) :
    ((newPids pre post).length = 1 →
       ∃ p, (start_ahk_script s pre post).1.ahk_pid = some p ∧
            p ∈ post ∧ p ∉ pre ∧
            stop_ahk_script (start_ahk_script s pre post).1
              = [Event.killPid p]) ∧
    ((newPids pre post).length ≠ 1 →
       (start_ahk_script s pre post).1.ahk_pid = none ∧
       stop_ahk_script (start_ahk_script s pre post).1 = []) ∧
    (∀ s2 : OrchState, s2.ahk_pid = none → stop_ahk_script s2 = []) ∧
    (∀ (s2 : OrchState) (p : Nat), s2.ahk_pid = some p →
       stop_ahk_script s2 = [Event.killPid p]) := by
  have hnone : ∀ s2 : OrchState, s2.ahk_pid = none →
      stop_ahk_script s2 = [] := by
    intro s2 h2
    unfold stop_ahk_script
    rw [h2]
  have hsome : ∀ (s2 : OrchState) (p : Nat), s2.ahk_pid = some p →
      stop_ahk_script s2 = [Event.killPid p] := by
    intro s2 p h2
    unfold stop_ahk_script
    rw [h2]
  refine ⟨?_, ?_, hnone, hsome⟩
  · intro hl
    cases hl2 : newPids pre post with
    | nil => rw [hl2] at hl; cases hl
    | cons p rest =>
      cases rest with
      | nil =>
        have hpid : (start_ahk_script s pre post).1.ahk_pid = some p := by
          unfold start_ahk_script
          rw [hl2]
        have hp : p ∈ newPids pre post := by
          rw [hl2]
          exact List.mem_singleton.mpr rfl
        have hp2 : p ∈ post ∧ p ∉ pre := by
          unfold newPids at hp
          rw [List.mem_dedup, List.mem_filter] at hp
          exact ⟨hp.1, of_decide_eq_true hp.2⟩
        exact ⟨p, hpid, hp2.1, hp2.2, hsome _ p hpid⟩
      | cons q rest2 =>
        rw [hl2] at hl
        simp at hl
  · intro hl
    have hpid : (start_ahk_script s pre post).1.ahk_pid = none := by
      unfold start_ahk_script
      cases hl2 : newPids pre post with
      | nil => rfl
      | cons p rest =>
        cases rest with
        | nil =>
          exfalso
          rw [hl2] at hl
          exact hl rfl
        | cons q rest2 => rfl
    exact ⟨hpid, hnone _ hpid⟩

theorem claim_C8_witness :
    (∃ p, (start_ahk_script initState [1, 2] [1, 2, 3]).1.ahk_pid = some p ∧
          p ∈ [1, 2, 3] ∧ p ∉ [1, 2] ∧
          stop_ahk_script (start_ahk_script initState [1, 2] [1, 2, 3]).1
            = [Event.killPid p]) ∧
    (start_ahk_script initState [1, 2] [1, 2, 3, 4]).1.ahk_pid = none :=
  ⟨(claim_C8_companion_identity initState [1, 2] [1, 2, 3]).1 (by decide),
   ((claim_C8_companion_identity initState [1, 2] [1, 2, 3, 4]).2.1
      (by decide)).1⟩

theorem stop_active_mode_preserves_tid (s : OrchState) (m : ModeId)
    (t : Transcriber) (h : s.transcribers m = some t) :
    ∃ t2, (stop_active_mode s).1.transcribers m = some t2 ∧
          t2.tid = t.tid := by
  unfold stop_active_mode
  cases hm : s.current_mode with
  | none => exact ⟨t, h, rfl⟩
  | some x =>
    cases x with
    | realtime =>
      cases ht : s.transcribers ModeId.realtime with
      | none => exact ⟨t, h, rfl⟩
      | some t0 =>
        by_cases hm2 : m = ModeId.realtime
        · subst hm2
          have e : t0 = t := by
            rw [ht] at h
            exact Option.some.inj h
          subst e
          exact ⟨(rt_stop t0).1, by simp [upd], rt_stop_tid t0⟩
        · exact ⟨t, by simp [upd, hm2, h], rfl⟩
    | longform =>
      cases ht : s.transcribers ModeId.longform with
      | none => exact ⟨t, h, rfl⟩
      | some t0 => exact ⟨t, h, rfl⟩
    | static => exact ⟨t, h, rfl⟩

theorem cleanup_transcribers_preserves_tid (s : OrchState) (m : ModeId)
    (t : Transcriber) (h : s.transcribers m = some t) :
    ∃ t2, (cleanup_transcribers s).1.transcribers m = some t2 ∧
          t2.tid = t.tid := by
  unfold cleanup_transcribers
  cases ht : s.transcribers ModeId.realtime with
  | none => exact ⟨t, h, rfl⟩
  | some t0 =>
    by_cases hm2 : m = ModeId.realtime
    · subst hm2
      have e : t0 = t := by
        rw [ht] at h
        exact Option.some.inj h
      subst e
      exact ⟨(rt_stop t0).1, by simp [upd], rt_stop_tid t0⟩
    · exact ⟨t, by simp [upd, hm2, h], rfl⟩

theorem stop_preserves_tid (b : Bool) (s : OrchState) (m : ModeId)
    (t : Transcriber) (h : s.transcribers m = some t) :
    ∃ t2, (stop b s).1.transcribers m = some t2 ∧ t2.tid = t.tid := by
  cases hr : s.running with
  | false =>
    rw [stop_not_running b s hr]
    exact ⟨t, h, rfl⟩
  | true =>
    rw [stop_of_running b s hr]
    dsimp only
    obtain ⟨t1, h1, e1⟩ :=
      stop_active_mode_preserves_tid { s with running := false } m t h
    obtain ⟨t2, h2, e2⟩ := cleanup_transcribers_preserves_tid _ m t1 h1
    exact ⟨t2, h2, e2.trans e1⟩

theorem toggle_realtime_preserves_tid (env : Env) (s : OrchState)
    (m : ModeId) (t : Transcriber) (h : s.transcribers m = some t) :
    ∃ t2, (toggle_realtime env s).1.transcribers m = some t2 ∧
          t2.tid = t.tid := by
  unfold toggle_realtime
  cases hm : s.current_mode with
  | none =>
    cases hr : (initialize_transcriber env s ModeId.realtime).2.1 with
    | none =>
      simp only []
      rw [hr]
      exact ⟨t, initialize_transcriber_preserves env s ModeId.realtime m t h, rfl⟩
    | some t0 =>
      simp only []
      rw [hr]
      exact ⟨t, initialize_transcriber_preserves env s ModeId.realtime m t h, rfl⟩
  | some x =>
    cases x with
    | realtime =>
      cases ht : s.transcribers ModeId.realtime with
      | none => exact ⟨t, h, rfl⟩
      | some t0 =>
        by_cases hm2 : m = ModeId.realtime
        · subst hm2
          have e : t0 = t := by
            rw [ht] at h
            exact Option.some.inj h
          subst e
          refine ⟨(rt_stop { t0 with running := false }).1, ?_, ?_⟩
          · show upd s.transcribers ModeId.realtime
                (some (rt_stop { t0 with running := false }).1) ModeId.realtime
              = some (rt_stop { t0 with running := false }).1
            simp [upd]
          · rw [rt_stop_tid]
        · refine ⟨t, ?_, rfl⟩
          show upd s.transcribers ModeId.realtime
              (some (rt_stop { t0 with running := false }).1) m = some t
          simp [upd, hm2, h]
    | longform => exact ⟨t, h, rfl⟩
    | static => exact ⟨t, h, rfl⟩

theorem start_longform_preserves_tid (env : Env) (s : OrchState)
    (m : ModeId) (t : Transcriber) (h : s.transcribers m = some t) :
    ∃ t2, (start_longform env s).1.transcribers m = some t2 ∧
          t2.tid = t.tid := by
  unfold start_longform
  cases hm : s.current_mode with
  | some x => exact ⟨t, h, rfl⟩
  | none =>
    cases hr : (initialize_transcriber env s ModeId.longform).2.1 with
    | none =>
      simp only []
      rw [hr]
      exact ⟨t, initialize_transcriber_preserves env s ModeId.longform m t h, rfl⟩
    | some t0 =>
      simp only []
      rw [hr]
      exact ⟨t, initialize_transcriber_preserves env s ModeId.longform m t h, rfl⟩

theorem run_static_preserves_tid (env : Env) (s : OrchState)
    (m : ModeId) (t : Transcriber) (h : s.transcribers m = some t) :
    ∃ t2, (run_static env s).1.transcribers m = some t2 ∧
          t2.tid = t.tid := by
  unfold run_static
  cases hm : s.current_mode with
  | some x => exact ⟨t, h, rfl⟩
  | none =>
    cases hr : (initialize_transcriber env s ModeId.static).2.1 with
    | none =>
      simp only []
      rw [hr]
      exact ⟨t, initialize_transcriber_preserves env s ModeId.static m t h, rfl⟩
    | some t0 =>
      simp only []
      rw [hr]
      exact ⟨t, initialize_transcriber_preserves env s ModeId.static m t h, rfl⟩

theorem stop_longform_preserves_tid (s : OrchState) (m : ModeId)
    (t : Transcriber) (h : s.transcribers m = some t) :
    ∃ t2, (stop_longform s).1.transcribers m = some t2 ∧
          t2.tid = t.tid := by
  unfold stop_longform
  by_cases hm : s.current_mode = some ModeId.longform
  · rw [if_pos hm]
    cases ht : s.transcribers ModeId.longform with
    | none => exact ⟨t, h, rfl⟩
    | some t0 => exact ⟨t, h, rfl⟩
  · rw [if_neg hm]
    exact ⟨t, h, rfl⟩

theorem handle_command_preserves_tid (env : Env) (s : OrchState) (c : String)
    (m : ModeId) (t : Transcriber) (h : s.transcribers m = some t) :
    ∃ t2, (handle_command env s c).1.transcribers m = some t2 ∧
          t2.tid = t.tid := by
  by_cases h1 : c = "TOGGLE_REALTIME"
  · subst h1
    rw [handle_command_toggle]
    exact toggle_realtime_preserves_tid env s m t h
  by_cases h2 : c = "START_LONGFORM"
  · subst h2
    rw [handle_command_start_longform]
    exact start_longform_preserves_tid env s m t h
  by_cases h3 : c = "STOP_LONGFORM"
  · subst h3
    rw [handle_command_stop_longform]
    exact stop_longform_preserves_tid s m t h
  by_cases h4 : c = "RUN_STATIC"
  · subst h4
    rw [handle_command_run_static]
    exact run_static_preserves_tid env s m t h
  by_cases h5 : c = "QUIT"
  · subst h5
    rw [handle_command_quit]
    unfold quit
    dsimp only
    exact stop_preserves_tid true s m t h
  · rw [handle_command_unknown env s c h1 h2 h3 h4 h5]
    exact ⟨t, h, rfl⟩

/-- A sample state whose realtime transcriber cache is populated. -/
def sRT : OrchState :=
  { initState with
      transcribers := upd initState.transcribers ModeId.realtime
        (some (mkTranscriber ModeId.realtime 0)) }

/-- Claim C6: for every mode, the transcriber handle is created on the
first request for that mode (constructing exactly once), reused
unchanged by every later request, never recreated once cached (its
identity survives the processing of every command), and the underlying
engine instance is reused while live and destroyed only by the explicit
cleanup operation `stop` (or at process shutdown, which invokes it). -/
theorem claim_C6_handle_lifecycle :
    (∀ (env : Env) (s : OrchState) (m : ModeId) (t : Transcriber),
        s.transcribers m = some t →
        initialize_transcriber env s m = (s, some t, [])) ∧
    (∀ (env : Env) (s : OrchState) (m : ModeId),
        s.transcribers m = none → s.modules m = false →
        env.importOk m (s.importCount m) = true →
        env.constructOk m (s.constructCount m) = true →
        (initialize_transcriber env s m).1.transcribers m
            = some (mkTranscriber m s.nextId) ∧
        (initialize_transcriber env s m).1.constructCount m
            = s.constructCount m + 1) ∧
    (∀ (env : Env) (s : OrchState) (c : String) (m : ModeId)
        (t : Transcriber),
        s.transcribers m = some t →
        ∃ t2, (handle_command env s c).1.transcribers m = some t2 ∧
              t2.tid = t.tid) ∧
    (∀ (ok : Bool) (fresh : Nat) (t : Transcriber) (r : Nat),
        t.recorder = some r → initialize_recorder ok fresh t = (t, true)) ∧
    (∀ t : Transcriber, (rt_stop t).1.recorder = none) := by
  refine ⟨fun env s m t h => initialize_transcriber_cached env s m t h,
    fun env s m h0 h1 h3 h4 => ?_,
    fun env s c m t h => handle_command_preserves_tid env s c m t h,
    fun ok fresh t r hr => ?_, fun t => rt_stop_recorder t⟩
  · have hh := initialize_transcriber_fresh env s m h0 h1 h3 h4
    exact ⟨hh.2.1, hh.2.2.1⟩
  · unfold initialize_recorder
    rw [hr]

theorem claim_C6_witness :
    initialize_transcriber envAll sRT ModeId.realtime
        = (sRT, some (mkTranscriber ModeId.realtime 0), []) ∧
    initialize_recorder true 7 (mkTranscriber ModeId.longform 3)
        = (mkTranscriber ModeId.longform 3, true) :=
  ⟨claim_C6_handle_lifecycle.1 envAll sRT ModeId.realtime
      (mkTranscriber ModeId.realtime 0) rfl,
   claim_C6_handle_lifecycle.2.2.2.1 true 7 (mkTranscriber ModeId.longform 3)
      3 rfl⟩

end STT
